import Mathlib

/-!
Verification of the core behaviors of the shortener service: short-code
allocation, cache-aside URL resolution, idempotent deletion, and the
cross-system user block/unblock saga.

The Go handlers are embedded shallowly: durable tables are lists of rows,
external collaborators (Postgres connection faults, the Valkey cache, the
Auth0 identity provider, the nanoid generator) are injected outcome
parameters, and each handler returns its HTTP-level response together with
the resulting table state and a trace of the external calls it made, in
order. Transactional writes take effect only on the commit path, so a
handler that returns before committing leaves the table argument unchanged,
mirroring the deferred rollback in the Go code.
-/

deriving instance DecidableEq for Except

namespace Shortener

/-- Postgres error classes distinguished by the repository layer
(internal/repository/errors.go). uniqueViolation is pg code 23505,
checkViolation is pg code 23514, noRows is pgx.ErrNoRows, and connFailure
stands for any other storage error. -/
inductive PgError where
  | uniqueViolation
  | checkViolation
  | noRows
  | connFailure
deriving DecidableEq, Repr

/-- Queries.IsDuplicateKeyError: true exactly for pg code 23505. -/
def isDuplicateKeyError : PgError → Bool
  | .uniqueViolation => true
  | _ => false

/-- Queries.IsCheckConstraintError: true exactly for pg code 23514. -/
def isCheckConstraintError : PgError → Bool
  | .checkViolation => true
  | _ => false

/-- Queries.IsNotFoundError: true exactly for pgx.ErrNoRows. -/
def isNotFoundError : PgError → Bool
  | .noRows => true
  | _ => false

/-- An error returned by the Auth0 management client. apiStatus is some s
when the error is a structured core.APIError carrying HTTP status s, and
none for an unstructured error. -/
structure ProviderErr where
  apiStatus : Option Nat
deriving DecidableEq, Repr

/-- A row of the urls table (repository.Url). The serial bookkeeping of
created_at is kept as an abstract Nat timestamp. -/
structure Url where
  id : String
  longUrl : String
  isCustom : Bool
  userID : Option String
  createdAt : Nat
deriving DecidableEq, Repr

/-- A row of the user_blocks table (repository.UserBlock). The SERIAL id
column is never read by the handlers and is omitted; user_id carries a
unique index. Timestamps are abstract Nat values. -/
structure UserBlock where
  userId : String
  userEmail : Option String
  blockedBy : String
  blockedAt : Nat
  unblockedBy : Option String
  unblockedAt : Option Nat
  reason : Option String
deriving DecidableEq, Repr

/-- HTTP-level outcome of a handler, abstracting the echo responses used in
the source: 201 with a created row, 200 payloads, 204, and the echo error
statuses 400/403/404/409/500, plus a pass-through status taken verbatim
from a structured provider error. -/
inductive Resp where
  | createdUrl (u : Url)
  | okLongUrl (longUrl : String)
  | okUserBlock (b : UserBlock)
  | createdUserBlock (b : UserBlock)
  | noContent
  | badRequest
  | forbidden
  | notFound
  | conflict
  | internal
  | httpStatus (status : Nat)
deriving DecidableEq, Repr

/-- External calls a handler can make, recorded in program order. -/
inductive Event where
  | providerBlock (userId : String)
  | providerUnblock (userId : String)
  | dbBlockWrite (userId : String)
  | dbUnblockWrite (userId : String)
  | txCommit
  | cacheGet (code : String)
  | cacheSet (code : String) (ttlHours : Nat)
  | cacheDel (code : String)
  | storeRead (code : String)
  | storeDelete (code : String)
deriving DecidableEq, Repr

/-- How blockUserHandler surfaces a provider failure (admin.go): a
structured core.APIError propagates its status code verbatim, anything
else becomes echo.ErrInternalServerError. -/
def surfaceProviderErr (e : ProviderErr) : Resp :=
  match e.apiStatus with
  | some status => .httpStatus status
  | none => .internal

/-! ## SQL-level semantics of the repository queries -/

/-- GetLongUrl (url.sql): SELECT long_url FROM urls WHERE id = $1 LIMIT 1. -/
def getLongUrlDb (urls : List Url) (code : String) : Option String :=
  (urls.find? (fun u => u.id == code)).map (fun u => u.longUrl)

/-- DeleteUrl / DeleteURL (url.sql, admin.sql): DELETE FROM urls WHERE
id = $1, returning the number of affected rows (sqlc execrows). -/
def deleteUrlDb (urls : List Url) (code : String) : Nat × List Url :=
  ((urls.filter (fun u => u.id == code)).length,
   urls.filter (fun u => !(u.id == code)))

/-- DeleteAllUserURLs (admin.sql): DELETE FROM urls WHERE user_id = $1
RETURNING id. -/
def deleteAllUserUrlsDb (urls : List Url) (userId : String) : List String × List Url :=
  (((urls.filter (fun u => u.userID == some userId)).map (fun u => u.id)),
   urls.filter (fun u => !(u.userID == some userId)))

/-- Arguments of the BlockUser query (repository.BlockUserParams). -/
structure BlockUserParams where
  userID : String
  userEmail : Option String
  blockedBy : String
  reason : Option String
deriving DecidableEq, Repr

/-- BlockUser (admin.sql): INSERT INTO user_blocks ... ON CONFLICT
(user_id) DO UPDATE SET user_email, blocked_by, reason from the excluded
row and unblocked_by = NULL, unblocked_at = NULL, RETURNING the row. On
insert, blocked_at defaults to NOW(); the conflict update does not touch
blocked_at, so a re-block keeps the original timestamp. -/
def blockUserDb (tbl : List UserBlock) (p : BlockUserParams) (now : Nat) :
    UserBlock × List UserBlock :=
  match tbl.find? (fun b => b.userId == p.userID) with
  | some old =>
    (⟨old.userId, p.userEmail, p.blockedBy, old.blockedAt, none, none, p.reason⟩,
     tbl.map (fun b =>
       if b.userId == p.userID then
         ⟨old.userId, p.userEmail, p.blockedBy, old.blockedAt, none, none, p.reason⟩
       else b))
  | none =>
    (⟨p.userID, p.userEmail, p.blockedBy, now, none, none, p.reason⟩,
     tbl ++ [⟨p.userID, p.userEmail, p.blockedBy, now, none, none, p.reason⟩])

/-- UnblockUser (admin.sql): UPDATE user_blocks SET unblocked_by = $1,
unblocked_at = NOW() WHERE user_id = $2 RETURNING the row; an update that
matches no row yields pgx.ErrNoRows through the sqlc :one wrapper. -/
def unblockUserDb (tbl : List UserBlock) (userID unblockedBy : String) (now : Nat) :
    Except PgError (UserBlock × List UserBlock) :=
  match tbl.find? (fun b => b.userId == userID) with
  | none => .error .noRows
  | some old =>
    .ok (⟨old.userId, old.userEmail, old.blockedBy, old.blockedAt,
          some unblockedBy, some now, old.reason⟩,
         tbl.map (fun b =>
           if b.userId == userID then
             ⟨old.userId, old.userEmail, old.blockedBy, old.blockedAt,
              some unblockedBy, some now, old.reason⟩
           else b))

/-! ## Request validation (appvalidator and the struct tags) -/

/-- Characters admitted by the shortcode validator regex, the nanoid
alphabet a-zA-Z0-9_- (appvalidator/short_code.go). -/
def isShortCodeChar (c : Char) : Bool :=
  c.isAlpha || c.isDigit || c == '_' || c == '-'

/-- ValidateShortCode: the code matches the anchored regex over the
restricted alphabet (at least one character). -/
def validateShortCode (s : String) : Bool :=
  s.length > 0 && s.toList.all isShortCodeChar

/-- Simplified model of the http_url validator tag: an absolute URL with
an http or https scheme. Scheme-level only; no verified claim depends on
finer URL structure. -/
def isHttpUrl (s : String) : Bool :=
  s.toList.take 7 == "http://".toList || s.toList.take 8 == "https://".toList

/-- A bound CreateShortUrlDTO body. -/
structure CreateShortUrlDTO where
  shortCode : String
  url : String
deriving DecidableEq, Repr

/-- Validation of CreateShortUrlDTO per its struct tags: short_code is
omitempty,min=5,max=16,shortcode and url is required,http_url. -/
def validateCreateDto (d : CreateShortUrlDTO) : Bool :=
  (d.shortCode == "" ||
    (decide (5 ≤ d.shortCode.length) && decide (d.shortCode.length ≤ 16) &&
     validateShortCode d.shortCode))
  && isHttpUrl d.url

/-- Validation of BlockUserParams per its struct tags: userId is
required,min=1,max=50 and reason is omitzero,min=1,max=255. -/
def validBlockParams (userID : String) (reason : Option String) : Bool :=
  decide (1 ≤ userID.length) && decide (userID.length ≤ 50) &&
  (match reason with
   | none => true
   | some r => decide (1 ≤ r.length) && decide (r.length ≤ 255))

/-! ## Handlers -/

/-- Result of the create handler: the response and the number of insert
statements attempted against the urls table. -/
structure CreateResult where
  resp : Resp
  inserts : Nat
deriving DecidableEq, Repr

/-- Bound on the generate-and-insert loop (createShortURLHandler). -/
def maxRetries : Nat := 3

/-- The generate-and-insert loop of createShortURLHandler. genRes gives
the generator outcome at each attempt and insRes the outcome of the
CreateUrl insert (the ok row being what the store returned). A generator
failure breaks the loop and surfaces Internal; an insert success breaks
with 201; a duplicate-key failure retries; a check-constraint failure
returns Conflict; any other failure breaks and surfaces Internal, as does
running out of attempts. -/
def genLoop (genRes : Nat → Except Unit String) (insRes : Nat → Except PgError Url) :
    Nat → Nat → Nat → CreateResult
  | _attempt, 0, inserts => ⟨.internal, inserts⟩
  | attempt, r + 1, inserts =>
    match genRes attempt with
    | .error _ => ⟨.internal, inserts⟩
    | .ok _code =>
      match insRes attempt with
      | .ok u => ⟨.createdUrl u, inserts + 1⟩
      | .error e =>
        if isDuplicateKeyError e then genLoop genRes insRes (attempt + 1) r (inserts + 1)
        else if isCheckConstraintError e then ⟨.conflict, inserts + 1⟩
        else ⟨.internal, inserts + 1⟩

/-- createShortURLHandler: after binding and validating the DTO, a
non-empty custom short code requires an authenticated owner (403
otherwise) and is inserted exactly once with isCustom true, mapping a
duplicate-key failure and a check-constraint failure to 409 and any other
failure to 500; an empty short code enters the bounded generate-and-insert
loop. customRes is the store outcome of the single custom insert. -/
def createShortURLHandler (uid : Option String) (dto : CreateShortUrlDTO)
    (customRes : Except PgError Url) (genRes : Nat → Except Unit String)
    (insRes : Nat → Except PgError Url) : CreateResult :=
  if !validateCreateDto dto then ⟨.badRequest, 0⟩
  else if dto.shortCode ≠ "" then
    if uid = none ∨ uid = some "" then ⟨.forbidden, 0⟩
    else
      match customRes with
      | .ok u => ⟨.createdUrl u, 1⟩
      | .error e =>
        if isDuplicateKeyError e then ⟨.conflict, 1⟩
        else if isCheckConstraintError e then ⟨.conflict, 1⟩
        else ⟨.internal, 1⟩
  else genLoop genRes insRes 0 maxRetries 0

/-- Value the cache read yields to the handler: cache.GetLongUrl returns
the empty string alongside any client error, so a failed read is
indistinguishable from a miss at the call site. -/
def cachedValue (r : Except Unit String) : String :=
  match r with
  | .error _ => ""
  | .ok v => v

/-- Fixed cache expiry (cache defaultExpire = 24 * time.Hour), in hours. -/
def defaultExpireHours : Nat := 24

/-- Injected collaborator outcomes for the resolve path: the cache read
result, whether the store read fails with a non-noRows error, and whether
the write-through cache set succeeds. -/
structure ResolveEnv where
  cacheGetRes : Except Unit String
  storeFault : Bool
  cacheSetOk : Bool
deriving DecidableEq, Repr

/-- Result of the resolve and delete handlers that do not change the
user_blocks table: the response plus the trace of external calls. -/
structure ResolveResult where
  resp : Resp
  trace : List Event
deriving DecidableEq, Repr

/-- getLongUrlHandler: validate code (required), read the cache first with
errors treated as a miss, return a non-empty cached value immediately,
otherwise read the store (noRows surfaces 404, other failures 500) and on
success write through to the cache with the fixed 24-hour expiry; the
cache write outcome does not reach the response. -/
def getLongUrlHandler (urls : List Url) (code : String) (env : ResolveEnv) :
    ResolveResult :=
  if code = "" then ⟨.badRequest, []⟩
  else if cachedValue env.cacheGetRes ≠ "" then
    ⟨.okLongUrl (cachedValue env.cacheGetRes), [.cacheGet code]⟩
  else if env.storeFault then ⟨.internal, [.cacheGet code, .storeRead code]⟩
  else
    match getLongUrlDb urls code with
    | none => ⟨.notFound, [.cacheGet code, .storeRead code]⟩
    | some lu =>
      ⟨.okLongUrl lu, [.cacheGet code, .storeRead code,
                       .cacheSet code defaultExpireHours]⟩

/-- Injected collaborator outcomes for the delete handlers: whether the
store delete fails, and the result of the best-effort cache eviction. -/
structure DeleteEnv where
  storeFault : Bool
  cacheDelRes : Except Unit Nat
deriving DecidableEq, Repr

/-- Result of a delete handler: response, urls table after, call trace. -/
structure DeleteResult where
  resp : Resp
  urls : List Url
  trace : List Event
deriving DecidableEq, Repr

/-- deleteURLHandler (admin.go): validate code, run the store delete (a
failure surfaces 500), return 404 when zero rows were affected, and only
then evict the cache entry best-effort and answer 204. -/
def deleteURLHandler (urls : List Url) (code : String) (env : DeleteEnv) :
    DeleteResult :=
  if code = "" then ⟨.badRequest, urls, []⟩
  else if env.storeFault then ⟨.internal, urls, [.storeDelete code]⟩
  else if (deleteUrlDb urls code).1 = 0 then
    ⟨.notFound, (deleteUrlDb urls code).2, [.storeDelete code]⟩
  else ⟨.noContent, (deleteUrlDb urls code).2, [.storeDelete code, .cacheDel code]⟩

/-- The user-facing single-code delete handler (urls.go), same control
flow as the admin variant: store delete, 500 on failure, 404 on zero rows,
cache eviction only after a successful delete of at least one row. -/
def deletShortUrlHandler (urls : List Url) (code : String) (env : DeleteEnv) :
    DeleteResult :=
  if code = "" then ⟨.badRequest, urls, []⟩
  else if env.storeFault then ⟨.internal, urls, [.storeDelete code]⟩
  else if (deleteUrlDb urls code).1 = 0 then
    ⟨.notFound, (deleteUrlDb urls code).2, [.storeDelete code]⟩
  else ⟨.noContent, (deleteUrlDb urls code).2, [.storeDelete code, .cacheDel code]⟩

/-- Injected collaborator outcomes for the block saga: whether the
transaction opens, the Auth0 block result (the ok value carrying the
updated user email), an injected failure of the local upsert, whether the
commit succeeds, and the clock. -/
structure BlockEnv where
  beginOk : Bool
  providerBlockRes : Except ProviderErr (Option String)
  upsertFault : Option PgError
  commitOk : Bool
  now : Nat
deriving DecidableEq, Repr

/-- Result of a saga handler: response, user_blocks table after the
transaction resolves (rollback restores the original), call trace. -/
structure SagaResult where
  resp : Resp
  table : List UserBlock
  trace : List Event
deriving DecidableEq, Repr

/-- blockUserHandler (admin.go): validate, begin a transaction, block the
user in Auth0 first (a failure aborts with the structured status verbatim
or 500, leaving local state untouched), then upsert the local block record
(a failure triggers a best-effort compensating Auth0 unblock and surfaces
500), then commit (a failure surfaces 500 with no compensating call; the
deferred rollback discards the local write). admin is the acting
administrator id taken from the verified token. -/
def blockUserHandler (tbl : List UserBlock) (userID : String) (reason : Option String)
    (admin : String) (env : BlockEnv) : SagaResult :=
  if !validBlockParams userID reason then ⟨.badRequest, tbl, []⟩
  else if !env.beginOk then ⟨.internal, tbl, []⟩
  else
    match env.providerBlockRes with
    | .error e => ⟨surfaceProviderErr e, tbl, [.providerBlock userID]⟩
    | .ok email =>
      match env.upsertFault with
      | some _ =>
        ⟨.internal, tbl,
         [.providerBlock userID, .dbBlockWrite userID, .providerUnblock userID]⟩
      | none =>
        if env.commitOk then
          ⟨.createdUserBlock (blockUserDb tbl ⟨userID, email, admin, reason⟩ env.now).1,
           (blockUserDb tbl ⟨userID, email, admin, reason⟩ env.now).2,
           [.providerBlock userID, .dbBlockWrite userID, .txCommit]⟩
        else ⟨.internal, tbl, [.providerBlock userID, .dbBlockWrite userID]⟩

/-- Injected collaborator outcomes for the unblock saga: whether the
transaction opens, an injected failure of the local update, the Auth0
unblock result, whether the commit succeeds, and the clock. -/
structure UnblockEnv where
  beginOk : Bool
  updateFault : Option PgError
  providerUnblockRes : Except ProviderErr Unit
  commitOk : Bool
  now : Nat
deriving DecidableEq, Repr

/-- unblockUserHandler (admin.go): validate, begin a transaction, update
the local record first (noRows surfaces 404 and other failures 500, with
no Auth0 call), then unblock in Auth0 — a provider failure returns before
the commit, so the deferred rollback discards the local update while the
provider status (verbatim when structured, else 500) is surfaced — and
finally commit (failure surfaces 500, also rolling back). -/
def unblockUserHandler (tbl : List UserBlock) (userID : String) (reason : Option String)
    (admin : String) (env : UnblockEnv) : SagaResult :=
  if !validBlockParams userID reason then ⟨.badRequest, tbl, []⟩
  else if !env.beginOk then ⟨.internal, tbl, []⟩
  else
    match (match env.updateFault with
           | some e => Except.error e
           | none => unblockUserDb tbl userID admin env.now) with
    | .error e =>
      if isNotFoundError e then ⟨.notFound, tbl, [.dbUnblockWrite userID]⟩
      else ⟨.internal, tbl, [.dbUnblockWrite userID]⟩
    | .ok res =>
      match env.providerUnblockRes with
      | .error pe =>
        ⟨surfaceProviderErr pe, tbl, [.dbUnblockWrite userID, .providerUnblock userID]⟩
      | .ok _ =>
        if env.commitOk then
          ⟨.okUserBlock res.1, res.2,
           [.dbUnblockWrite userID, .providerUnblock userID, .txCommit]⟩
        else ⟨.internal, tbl, [.dbUnblockWrite userID, .providerUnblock userID]⟩

/-! ## Helper lemmas -/

theorem deleteUrlDb_absent (urls : List Url) (code : String)
    (h : ∀ u ∈ urls, u.id ≠ code) : deleteUrlDb urls code = (0, urls) := by
  have h1 : urls.filter (fun u => u.id == code) = [] := by
    rw [List.filter_eq_nil_iff]
    intro u hu
    simp [h u hu]
  have h2 : urls.filter (fun u => !(u.id == code)) = urls := by
    rw [List.filter_eq_self]
    intro u hu
    simp [h u hu]
  simp [deleteUrlDb, h1, h2]

theorem deleteUrlDb_result_absent (urls : List Url) (code : String) :
    ∀ u ∈ (deleteUrlDb urls code).2, u.id ≠ code := by
  intro u hu
  have := List.mem_filter.1 hu
  simpa using this.2

theorem deleteAllUserUrlsDb_absent (urls : List Url) (userId : String)
    (h : ∀ u ∈ urls, u.userID ≠ some userId) :
    deleteAllUserUrlsDb urls userId = ([], urls) := by
  have h1 : urls.filter (fun u => u.userID == some userId) = [] := by
    rw [List.filter_eq_nil_iff]
    intro u hu
    simp [h u hu]
  have h2 : urls.filter (fun u => !(u.userID == some userId)) = urls := by
    rw [List.filter_eq_self]
    intro u hu
    simp [h u hu]
  simp [deleteAllUserUrlsDb, h1, h2]

theorem deleteAllUserUrlsDb_result_absent (urls : List Url) (userId : String) :
    ∀ u ∈ (deleteAllUserUrlsDb urls userId).2, u.userID ≠ some userId := by
  intro u hu
  have := List.mem_filter.1 hu
  simpa using this.2

theorem deleteUrlDb_zero_rows (urls : List Url) (code : String)
    (h : (deleteUrlDb urls code).1 = 0) : (deleteUrlDb urls code).2 = urls := by
  have hnil : urls.filter (fun u => u.id == code) = [] := by
    simpa [deleteUrlDb, List.length_eq_zero] using h
  have : ∀ u ∈ urls, u.id ≠ code := by
    intro u hu hid
    have hmem : u ∈ urls.filter (fun u => u.id == code) :=
      List.mem_filter.2 ⟨hu, by simp [hid]⟩
    simp [hnil] at hmem
  rw [deleteUrlDb_absent urls code this]

/-! ## Claim theorems -/

/-- C8 (amended): blocking a user who already has a block record succeeds
via the ON CONFLICT overwrite keyed by userId; it overwrites userEmail,
blockedBy and reason, clears unblockedBy and unblockedAt, and keeps the
blockedAt timestamp of the original record (the conflict update does not
refresh blocked_at). -/
theorem blockUser_reblock_overwrite (tbl : List UserBlock) (p : BlockUserParams)
    (now : Nat) (old : UserBlock)
    (h : tbl.find? (fun b => b.userId == p.userID) = some old) :
    (blockUserDb tbl p now).1 =
      ⟨old.userId, p.userEmail, p.blockedBy, old.blockedAt, none, none, p.reason⟩ ∧
    (blockUserDb tbl p now).2 =
      tbl.map (fun b =>
        if b.userId == p.userID then
          ⟨old.userId, p.userEmail, p.blockedBy, old.blockedAt, none, none, p.reason⟩
        else b) := by
  constructor <;> simp [blockUserDb, h]

/-- Witness for blockUser_reblock_overwrite at a concrete table. -/
theorem blockUser_reblock_overwrite_witness :
    (blockUserDb [⟨"u1", none, "a0", 1, some "a0", some 2, none⟩]
        ⟨"u1", some "e", "a1", some "r"⟩ 5).1 =
      ⟨"u1", some "e", "a1", 1, none, none, some "r"⟩ ∧
    (blockUserDb [⟨"u1", none, "a0", 1, some "a0", some 2, none⟩]
        ⟨"u1", some "e", "a1", some "r"⟩ 5).2 =
      [⟨"u1", some "e", "a1", 1, none, none, some "r"⟩] := by
  have h := blockUser_reblock_overwrite
    [⟨"u1", none, "a0", 1, some "a0", some 2, none⟩]
    ⟨"u1", some "e", "a1", some "r"⟩ 5
    ⟨"u1", none, "a0", 1, some "a0", some 2, none⟩ (by decide)
  exact ⟨h.1, by rw [h.2]; rfl⟩

/-- C8 counterexample: the claim as stated says a re-block sets blockedAt
for the new block cycle; at this concrete input the original record has
blockedAt 1, the re-block happens at time 5, and the resulting record
still carries blockedAt 1. -/
theorem blockUser_reblock_keeps_blockedAt_cex :
    (blockUserDb [⟨"u1", none, "a0", 1, some "a0", some 2, none⟩]
        ⟨"u1", some "e", "a1", some "r"⟩ 5).1.blockedAt = 1 ∧ (1 : Nat) ≠ 5 := by
  decide

/-- C9: deletion of URL mappings is idempotent and non-failing on absence,
at the level of the DeleteUrl/DeleteURL and DeleteAllUserURLs queries:
with no matching mapping the delete returns zero affected rows (resp. an
empty id list) and leaves the table unchanged, and repeating any delete
returns zero rows again; the operations are total, never an error. -/
theorem delete_idempotent_absent (urls : List Url) (code userId : String) :
    ((∀ u ∈ urls, u.id ≠ code) → deleteUrlDb urls code = (0, urls)) ∧
    (deleteUrlDb (deleteUrlDb urls code).2 code = (0, (deleteUrlDb urls code).2)) ∧
    ((∀ u ∈ urls, u.userID ≠ some userId) →
      deleteAllUserUrlsDb urls userId = ([], urls)) ∧
    (deleteAllUserUrlsDb (deleteAllUserUrlsDb urls userId).2 userId =
      ([], (deleteAllUserUrlsDb urls userId).2)) := by
  refine ⟨?_, ?_, ?_, ?_⟩
  · exact deleteUrlDb_absent urls code
  · exact deleteUrlDb_absent _ code (deleteUrlDb_result_absent urls code)
  · exact deleteAllUserUrlsDb_absent urls userId
  · exact deleteAllUserUrlsDb_absent _ userId (deleteAllUserUrlsDb_result_absent urls userId)

/-- Witness for delete_idempotent_absent at a concrete table. -/
theorem delete_idempotent_absent_witness :
    deleteUrlDb [⟨"abc12", "https://example.com", false, none, 0⟩] "zzz" =
      (0, [⟨"abc12", "https://example.com", false, none, 0⟩]) ∧
    deleteAllUserUrlsDb [⟨"abc12", "https://example.com", false, none, 0⟩] "u9" =
      ([], [⟨"abc12", "https://example.com", false, none, 0⟩]) := by
  have h := delete_idempotent_absent
    [⟨"abc12", "https://example.com", false, none, 0⟩] "zzz" "u9"
  exact ⟨h.1 (by decide), h.2.2.1 (by decide)⟩

/-- C10: in both single-code delete handlers, the cache eviction happens
only after the store delete succeeds with at least one affected row; a
store failure or a zero-row delete returns (500 resp. 404) without
touching the cache, so a delete of a code absent from the store never
evicts that cache entry. -/
theorem delete_cache_eviction_gated (urls : List Url) (code : String) (env : DeleteEnv)
    (hc : code ≠ "") :
    (env.storeFault = true →
      deleteURLHandler urls code env = ⟨.internal, urls, [.storeDelete code]⟩) ∧
    ((deleteUrlDb urls code).1 = 0 → env.storeFault = false →
      deleteURLHandler urls code env = ⟨.notFound, urls, [.storeDelete code]⟩) ∧
    ((deleteUrlDb urls code).1 ≠ 0 → env.storeFault = false →
      deleteURLHandler urls code env =
        ⟨.noContent, (deleteUrlDb urls code).2, [.storeDelete code, .cacheDel code]⟩) ∧
    (Event.cacheDel code ∈ (deleteURLHandler urls code env).trace ↔
      env.storeFault = false ∧ (deleteUrlDb urls code).1 ≠ 0) ∧
    deletShortUrlHandler urls code env = deleteURLHandler urls code env := by
  obtain ⟨sf, cd⟩ := env
  refine ⟨?_, ?_, ?_, ?_, rfl⟩
  · intro hsf
    subst hsf
    simp [deleteURLHandler, hc]
  · intro h0 hsf
    subst hsf
    simp [deleteURLHandler, hc, h0, deleteUrlDb_zero_rows urls code h0]
  · intro h0 hsf
    subst hsf
    simp [deleteURLHandler, hc, h0]
  · cases sf with
    | true => simp [deleteURLHandler, hc]
    | false =>
      by_cases h0 : (deleteUrlDb urls code).1 = 0 <;> simp [deleteURLHandler, hc, h0]

/-- Witness for delete_cache_eviction_gated at a concrete table. -/
theorem delete_cache_eviction_gated_witness :
    deleteURLHandler [⟨"abc12", "https://example.com", false, none, 0⟩] "zzz"
        ⟨false, .ok 0⟩ =
      ⟨.notFound, [⟨"abc12", "https://example.com", false, none, 0⟩],
       [.storeDelete "zzz"]⟩ := by
  have h := delete_cache_eviction_gated
    [⟨"abc12", "https://example.com", false, none, 0⟩] "zzz" ⟨false, .ok 0⟩
    (by decide)
  exact h.2.1 (by decide) rfl

/-- C4: the cache-aside read path of getLongUrlHandler. A cache read error
behaves exactly like a miss (the handler result is the same, so the cache
never fails the request); a non-empty cached value is returned with no
store read; on a miss the store is read, noRows surfacing 404 and other
store failures 500; a successful store read is written through to the
cache with the fixed 24-hour expiry and the cache write outcome does not
change the result. -/
theorem resolveCode_cache_aside (urls : List Url) (code : String) (env : ResolveEnv)
    (hc : code ≠ "") :
    (getLongUrlHandler urls code ⟨.error (), env.storeFault, env.cacheSetOk⟩ =
      getLongUrlHandler urls code ⟨.ok "", env.storeFault, env.cacheSetOk⟩) ∧
    (∀ v, env.cacheGetRes = .ok v → v ≠ "" →
      getLongUrlHandler urls code env = ⟨.okLongUrl v, [.cacheGet code]⟩) ∧
    (cachedValue env.cacheGetRes = "" → env.storeFault = true →
      getLongUrlHandler urls code env = ⟨.internal, [.cacheGet code, .storeRead code]⟩) ∧
    (cachedValue env.cacheGetRes = "" → env.storeFault = false →
      getLongUrlDb urls code = none →
      getLongUrlHandler urls code env = ⟨.notFound, [.cacheGet code, .storeRead code]⟩) ∧
    (∀ lu, cachedValue env.cacheGetRes = "" → env.storeFault = false →
      getLongUrlDb urls code = some lu →
      getLongUrlHandler urls code env =
        ⟨.okLongUrl lu,
         [.cacheGet code, .storeRead code, .cacheSet code defaultExpireHours]⟩) ∧
    (∀ b, getLongUrlHandler urls code ⟨env.cacheGetRes, env.storeFault, b⟩ =
      getLongUrlHandler urls code env) := by
  obtain ⟨cg, sf, cs⟩ := env
  refine ⟨rfl, ?_, ?_, ?_, ?_, fun b => rfl⟩
  · intro v hv hne
    subst hv
    simp [getLongUrlHandler, cachedValue, hc, hne]
  · intro hm hsf
    subst hsf
    simp only at hm
    simp [getLongUrlHandler, hc, hm]
  · intro hm hsf hdb
    subst hsf
    simp only at hm
    simp [getLongUrlHandler, hc, hm, hdb]
  · intro lu hm hsf hdb
    subst hsf
    simp only at hm
    simp [getLongUrlHandler, hc, hm, hdb]

/-- Witness for resolveCode_cache_aside: a cache miss backed by a store
row yields the row and a write-through with the 24-hour expiry. -/
theorem resolveCode_cache_aside_witness :
    getLongUrlHandler [⟨"abc12", "https://example.com", false, none, 0⟩] "abc12"
        ⟨.ok "", false, true⟩ =
      ⟨.okLongUrl "https://example.com",
       [.cacheGet "abc12", .storeRead "abc12",
        .cacheSet "abc12" defaultExpireHours]⟩ := by
  have h := resolveCode_cache_aside [⟨"abc12", "https://example.com", false, none, 0⟩]
    "abc12" ⟨.ok "", false, true⟩ (by decide)
  exact h.2.2.2.2.1 "https://example.com" rfl rfl (by decide)

theorem genLoop_inserts_le (genRes : Nat → Except Unit String)
    (insRes : Nat → Except PgError Url) :
    ∀ r a i, (genLoop genRes insRes a r i).inserts ≤ i + r := by
  intro r
  induction r with
  | zero => intro a i; simp [genLoop]
  | succ n ih =>
    intro a i
    cases hg : genRes a with
    | error e => simp [genLoop, hg]
    | ok s =>
      cases hi : insRes a with
      | ok u => simp [genLoop, hg, hi]
      | error e =>
        by_cases hd : isDuplicateKeyError e
        · have h := ih (a + 1) (i + 1)
          simp [genLoop, hg, hi, hd]
          try omega
        · by_cases hcc : isCheckConstraintError e <;>
            simp [genLoop, hg, hi, hd, hcc]

/-- C5: the generated-code allocation policy. The loop makes at most
maxRetries (3) insert attempts; an allocation whose generator always
succeeds and whose inserts always hit a duplicate key fails after exactly
3 insert attempts, surfacing Internal; a non-duplicate-key insert failure
ends the loop at once after exactly one more insert (Conflict for a
check-constraint violation, Internal otherwise); a duplicate-key failure
continues with the next attempt. -/
theorem allocate_generated_retry_policy :
    (∀ uid dto customRes genRes insRes,
      (createShortURLHandler uid dto customRes genRes insRes).inserts ≤ maxRetries) ∧
    (∀ uid dto customRes genRes insRes (codes : Nat → String),
      validateCreateDto dto = true → dto.shortCode = "" →
      (∀ a, genRes a = .ok (codes a)) →
      (∀ a, insRes a = .error .uniqueViolation) →
      createShortURLHandler uid dto customRes genRes insRes = ⟨.internal, 3⟩) ∧
    (∀ genRes insRes a r i s e, genRes a = .ok s → insRes a = .error e →
      isDuplicateKeyError e = false →
      genLoop genRes insRes a (r + 1) i =
        ⟨if isCheckConstraintError e then .conflict else .internal, i + 1⟩) ∧
    (∀ genRes insRes a r i s, genRes a = .ok s →
      insRes a = .error .uniqueViolation →
      genLoop genRes insRes a (r + 1) i = genLoop genRes insRes (a + 1) r (i + 1)) := by
  refine ⟨?_, ?_, ?_, ?_⟩
  · intro uid dto customRes genRes insRes
    by_cases hv : validateCreateDto dto
    · by_cases hsc : dto.shortCode = ""
      · have h := genLoop_inserts_le genRes insRes maxRetries 0 0
        simpa [createShortURLHandler, hv, hsc] using h
      · by_cases ha : uid = none ∨ uid = some ""
        · simp [createShortURLHandler, hv, hsc, ha, maxRetries]
        · cases customRes with
          | ok u => simp [createShortURLHandler, hv, hsc, ha, maxRetries]
          | error e =>
            by_cases h1 : isDuplicateKeyError e <;>
              by_cases h2 : isCheckConstraintError e <;>
                simp [createShortURLHandler, hv, hsc, ha, maxRetries, h1, h2]
    · simp [createShortURLHandler, hv]
  · intro uid dto customRes genRes insRes codes hv hsc hg hi
    simp [createShortURLHandler, hv, hsc, maxRetries, genLoop,
          hg 0, hi 0, hg 1, hi 1, hg 2, hi 2, isDuplicateKeyError]
  · intro genRes insRes a r i s e hg hi hd
    by_cases hcc : isCheckConstraintError e <;> simp [genLoop, hg, hi, hd, hcc]
  · intro genRes insRes a r i s hg hi
    simp [genLoop, hg, hi, isDuplicateKeyError]

/-- Witness for allocate_generated_retry_policy: a run that collides on
every attempt makes exactly 3 inserts and surfaces Internal. -/
theorem allocate_generated_retry_policy_witness :
    createShortURLHandler none ⟨"", "https://example.com"⟩ (.error .connFailure)
        (fun _ => .ok "abcdefgh") (fun _ => .error .uniqueViolation) =
      ⟨.internal, 3⟩ :=
  allocate_generated_retry_policy.2.1 none ⟨"", "https://example.com"⟩
    (.error .connFailure) (fun _ => .ok "abcdefgh")
    (fun _ => .error .uniqueViolation) (fun _ => "abcdefgh")
    (by decide) rfl (fun _ => rfl) (fun _ => rfl)

/-- C6 counterexample: with a custom code that violates the length
constraint and no owner, the handler rejects the request as a validation
failure (400), not Forbidden — the DTO validation runs before the
anonymous-caller guard. -/
theorem custom_code_anonymous_not_forbidden_cex :
    createShortURLHandler none ⟨"abc", "https://example.com"⟩ (.error .connFailure)
        (fun _ => .ok "abcdefgh") (fun _ => .error .connFailure) =
      ⟨.badRequest, 0⟩ ∧
    (CreateResult.mk .badRequest 0 ≠ ⟨.forbidden, 0⟩) := by
  exact ⟨rfl, by decide⟩

/-- C6 (amended): for every call whose DTO passes validation and which
supplies a custom code with no owner identifier (absent or empty), the
result is Forbidden with no insert attempted, regardless of the store
outcome oracles. -/
theorem custom_code_anonymous_forbidden (uid : Option String)
    (dto : CreateShortUrlDTO) (customRes : Except PgError Url)
    (genRes : Nat → Except Unit String) (insRes : Nat → Except PgError Url)
    (hv : validateCreateDto dto = true) (hsc : dto.shortCode ≠ "")
    (ha : uid = none ∨ uid = some "") :
    createShortURLHandler uid dto customRes genRes insRes = ⟨.forbidden, 0⟩ := by
  rcases ha with rfl | rfl <;> simp [createShortURLHandler, hv, hsc]

/-- Witness for custom_code_anonymous_forbidden at a concrete request. -/
theorem custom_code_anonymous_forbidden_witness :
    createShortURLHandler none ⟨"mycode1", "https://example.com"⟩
        (.error .connFailure) (fun _ => .ok "abcdefgh")
        (fun _ => .error .connFailure) = ⟨.forbidden, 0⟩ :=
  custom_code_anonymous_forbidden none ⟨"mycode1", "https://example.com"⟩
    (.error .connFailure) (fun _ => .ok "abcdefgh") (fun _ => .error .connFailure)
    (by decide) (by decide) (Or.inl rfl)

/-- C7: a custom-code allocation by an authenticated owner attempts
exactly one insert whatever the store outcome, and both a duplicate-key
collision and a check-constraint violation on that insert surface
Conflict. -/
theorem custom_code_single_insert_conflict (uid : Option String) (s : String)
    (dto : CreateShortUrlDTO) (customRes : Except PgError Url)
    (genRes : Nat → Except Unit String) (insRes : Nat → Except PgError Url)
    (hv : validateCreateDto dto = true) (hsc : dto.shortCode ≠ "")
    (hu : uid = some s) (hs : s ≠ "") :
    (createShortURLHandler uid dto customRes genRes insRes).inserts = 1 ∧
    (customRes = .error .uniqueViolation →
      createShortURLHandler uid dto customRes genRes insRes = ⟨.conflict, 1⟩) ∧
    (customRes = .error .checkViolation →
      createShortURLHandler uid dto customRes genRes insRes = ⟨.conflict, 1⟩) := by
  subst hu
  refine ⟨?_, ?_, ?_⟩
  · cases customRes with
    | ok u => simp [createShortURLHandler, hv, hsc, hs]
    | error e =>
      by_cases h1 : isDuplicateKeyError e <;>
        by_cases h2 : isCheckConstraintError e <;>
          simp [createShortURLHandler, hv, hsc, hs, h1, h2]
  · intro h
    subst h
    simp [createShortURLHandler, hv, hsc, hs, isDuplicateKeyError]
  · intro h
    subst h
    simp [createShortURLHandler, hv, hsc, hs, isDuplicateKeyError,
          isCheckConstraintError]

/-- Witness for custom_code_single_insert_conflict: a duplicate-key
collision on a custom code surfaces Conflict after one insert. -/
theorem custom_code_single_insert_conflict_witness :
    createShortURLHandler (some "user-1") ⟨"mycode1", "https://example.com"⟩
        (.error .uniqueViolation) (fun _ => .ok "abcdefgh")
        (fun _ => .error .connFailure) = ⟨.conflict, 1⟩ :=
  (custom_code_single_insert_conflict (some "user-1") "user-1"
    ⟨"mycode1", "https://example.com"⟩ (.error .uniqueViolation)
    (fun _ => .ok "abcdefgh") (fun _ => .error .connFailure)
    (by decide) (by decide) rfl (by decide)).2.1 rfl

/-- C1: in the block saga, every local write to the block-record table is
preceded in the call trace by the Auth0 block call, and when that call
fails the local table is unchanged and the response surfaces the
structured provider status verbatim or Internal for an unstructured
error. -/
theorem blockUser_remote_gates_local (tbl : List UserBlock) (userID : String)
    (reason : Option String) (admin : String) (env : BlockEnv)
    (hv : validBlockParams userID reason = true) (hb : env.beginOk = true) :
    (∀ i, (blockUserHandler tbl userID reason admin env).trace.get? i =
        some (.dbBlockWrite userID) →
      ∃ j, j < i ∧ (blockUserHandler tbl userID reason admin env).trace.get? j =
        some (.providerBlock userID)) ∧
    (∀ e, env.providerBlockRes = .error e →
      (blockUserHandler tbl userID reason admin env).table = tbl ∧
      (blockUserHandler tbl userID reason admin env).resp = surfaceProviderErr e) := by
  obtain ⟨bOk, pRes, uFault, cOk, now⟩ := env
  simp only at hb
  subst hb
  constructor
  · intro i hi
    cases pRes with
    | error e =>
      simp only [blockUserHandler, hv] at hi
      rcases i with _ | i
      · simp at hi
      · simp at hi
    | ok email =>
      cases uFault with
      | some f =>
        simp only [blockUserHandler, hv] at hi ⊢
        rcases i with _ | i
        · simp at hi
        · exact ⟨0, Nat.succ_pos i, rfl⟩
      | none =>
        cases cOk with
        | true =>
          simp only [blockUserHandler, hv] at hi ⊢
          rcases i with _ | i
          · simp at hi
          · exact ⟨0, Nat.succ_pos i, rfl⟩
        | false =>
          simp only [blockUserHandler, hv] at hi ⊢
          rcases i with _ | i
          · simp at hi
          · exact ⟨0, Nat.succ_pos i, rfl⟩
  · intro e he
    cases pRes with
    | ok email => simp at he
    | error e0 =>
      obtain rfl : e0 = e := by injection he
      constructor <;> simp [blockUserHandler, hv]

/-- Witness for blockUser_remote_gates_local: a structured 404 from the
provider leaves the table unchanged and surfaces 404. -/
theorem blockUser_remote_gates_local_witness :
    (blockUserHandler [] "u1" none "a" ⟨true, .error ⟨some 404⟩, none, true, 0⟩).table
      = [] ∧
    (blockUserHandler [] "u1" none "a" ⟨true, .error ⟨some 404⟩, none, true, 0⟩).resp
      = surfaceProviderErr ⟨some 404⟩ :=
  (blockUser_remote_gates_local [] "u1" none "a"
    ⟨true, .error ⟨some 404⟩, none, true, 0⟩ (by decide) rfl).2 ⟨some 404⟩ rfl

/-- C2 counterexample: at this concrete input the remote block succeeds,
the local upsert succeeds, the commit fails, and the handler surfaces
Internal without any compensating Auth0 unblock call in its trace —
against the claim that a commit failure also triggers compensation. -/
theorem blockUser_commit_fail_no_compensation_cex :
    blockUserHandler [] "u1" none "a" ⟨true, .ok none, none, false, 0⟩ =
      ⟨.internal, [], [.providerBlock "u1", .dbBlockWrite "u1"]⟩ ∧
    Event.providerUnblock "u1" ∉
      (blockUserHandler [] "u1" none "a" ⟨true, .ok none, none, false, 0⟩).trace := by
  decide

/-- C2 (amended): after a successful remote block, a failure of the local
block-record upsert triggers a best-effort compensating Auth0 unblock
before Internal is surfaced; a commit failure, however, surfaces Internal
with no compensating call and the local write rolled back. -/
theorem blockUser_compensation_on_upsert_failure (tbl : List UserBlock)
    (userID : String) (reason : Option String) (admin : String) (env : BlockEnv)
    (email : Option String)
    (hv : validBlockParams userID reason = true) (hb : env.beginOk = true)
    (hp : env.providerBlockRes = .ok email) :
    (∀ e, env.upsertFault = some e →
      blockUserHandler tbl userID reason admin env =
        ⟨.internal, tbl,
         [.providerBlock userID, .dbBlockWrite userID, .providerUnblock userID]⟩) ∧
    (env.upsertFault = none → env.commitOk = false →
      blockUserHandler tbl userID reason admin env =
        ⟨.internal, tbl, [.providerBlock userID, .dbBlockWrite userID]⟩) := by
  obtain ⟨bOk, pRes, uFault, cOk, now⟩ := env
  simp only at hb hp
  subst hb
  subst hp
  constructor
  · intro e he
    simp only at he
    subst he
    simp [blockUserHandler, hv]
  · intro h0 hco
    simp only at h0 hco
    subst h0
    subst hco
    simp [blockUserHandler, hv]

/-- Witness for blockUser_compensation_on_upsert_failure: a failed local
upsert after a successful remote block compensates and surfaces 500. -/
theorem blockUser_compensation_on_upsert_failure_witness :
    blockUserHandler [] "u1" none "a" ⟨true, .ok none, some .connFailure, true, 0⟩ =
      ⟨.internal, [],
       [.providerBlock "u1", .dbBlockWrite "u1", .providerUnblock "u1"]⟩ :=
  (blockUser_compensation_on_upsert_failure [] "u1" none "a"
    ⟨true, .ok none, some .connFailure, true, 0⟩ none (by decide) rfl rfl).1
    .connFailure rfl

/-- C3 counterexample: at this concrete input the local unblock update
succeeds and the Auth0 unblock fails with a structured 429; the handler
returns before the commit, so the table still holds the blocked record
(rollback) rather than the committed unblocked record the claim
predicts, while the provider status is surfaced. -/
theorem unblockUser_provider_fail_rolls_back_cex :
    unblockUserHandler [⟨"u1", none, "a0", 0, none, none, none⟩] "u1" none "a1"
        ⟨true, none, .error ⟨some 429⟩, true, 5⟩ =
      ⟨.httpStatus 429, [⟨"u1", none, "a0", 0, none, none, none⟩],
       [.dbUnblockWrite "u1", .providerUnblock "u1"]⟩ ∧
    (unblockUserHandler [⟨"u1", none, "a0", 0, none, none, none⟩] "u1" none "a1"
        ⟨true, none, .error ⟨some 429⟩, true, 5⟩).table ≠
      [⟨"u1", none, "a0", 0, some "a1", some 5, none⟩] := by
  decide

/-- C3 (amended): in the unblock saga, when the local update succeeds but
the Auth0 unblock fails, the handler returns before the commit — the
transaction is rolled back, leaving the table unchanged — while the
provider error is surfaced (structured status verbatim, else Internal). -/
theorem unblockUser_provider_fail_rollback (tbl : List UserBlock) (userID : String)
    (reason : Option String) (admin : String) (env : UnblockEnv) (pe : ProviderErr)
    (res : UserBlock × List UserBlock)
    (hv : validBlockParams userID reason = true) (hb : env.beginOk = true)
    (hf : env.updateFault = none)
    (hl : unblockUserDb tbl userID admin env.now = .ok res)
    (hp : env.providerUnblockRes = .error pe) :
    unblockUserHandler tbl userID reason admin env =
      ⟨surfaceProviderErr pe, tbl,
       [.dbUnblockWrite userID, .providerUnblock userID]⟩ := by
  obtain ⟨bOk, uF, pR, cOk, now⟩ := env
  simp only at hb hf hp hl
  subst hb
  subst hf
  subst hp
  simp [unblockUserHandler, hv, hl]

/-- Witness for unblockUser_provider_fail_rollback at a concrete blocked
record and a structured 429 provider failure. -/
theorem unblockUser_provider_fail_rollback_witness :
    unblockUserHandler [⟨"u2", none, "a0", 0, none, none, none⟩] "u2" none "a1"
        ⟨true, none, .error ⟨some 503⟩, true, 5⟩ =
      ⟨surfaceProviderErr ⟨some 503⟩, [⟨"u2", none, "a0", 0, none, none, none⟩],
       [.dbUnblockWrite "u2", .providerUnblock "u2"]⟩ :=
  unblockUser_provider_fail_rollback [⟨"u2", none, "a0", 0, none, none, none⟩]
    "u2" none "a1" ⟨true, none, .error ⟨some 503⟩, true, 5⟩ ⟨some 503⟩
    (⟨"u2", none, "a0", 0, some "a1", some 5, none⟩,
     [⟨"u2", none, "a0", 0, some "a1", some 5, none⟩])
    (by decide) rfl rfl (by decide) rfl

end Shortener
